import Mathlib

/-!
Verification of the product-video pipeline core (src/core of the repository)
against its natural-language specification.

The Python sources are shallowly embedded: each task body, callback and
service function becomes a pure Lean function over explicit inputs, with
external collaborators (OpenRouter, the image editor, Fal AI, the Redis
state store, the task queue) modelled as oracle parameters describing their
outcomes.  Database writes and queue submissions are recorded as explicit
effect lists.
-/

namespace ProductVideos

/-! ### Embedding of src/core/utils/error_handlers.py -/

/-- Classification of a raised Python exception as seen by
`task_error_handler`: the Celery `Retry` signal is passed through, the
`retry_for` tuple (`requests.exceptions.RequestException`, `TimeoutError`,
`ConnectionError`) is transient, everything else is fatal. -/
inductive ExcClass
  | retrySignal
  | transient
  | fatal
deriving DecidableEq

/-- A raised exception: its retry classification, message and type name. -/
structure Exc where
  cls : ExcClass
  msg : String
  etype : String
deriving DecidableEq

/-- Outcome of one execution of a task body: a returned value or a raised
exception. -/
inductive BodyOutcome (α : Type)
  | ok (a : α)
  | raises (e : Exc)
deriving DecidableEq

/-- The standardized error dictionary returned by `task_error_handler`
(`status`/`error`/`error_type`/`retries_exhausted`; the key
`retries_exhausted` is absent in the non-exhausted case, modelled as
`false`). -/
structure FailedDict where
  status : String
  error : String
  error_type : String
  retries_exhausted : Bool
deriving DecidableEq

/-- What the wrapped task produces towards the queue runtime for one
delivery: a returned body value, the standardized failed dictionary, a
`task_self.retry` reschedule after `delay` time units, or an exception
propagating out of the wrapper. -/
inductive TaskOutcome (α : Type)
  | result (a : α)
  | failedDict (d : FailedDict)
  | retryRaised (delay : Nat)
  | raisedOut (e : Exc)
deriving DecidableEq

/-- One execution of a body under `task_error_handler(max_retries)` with the
current Celery retry counter `retries` (`task_self.request.retries`), with
the default `retry_backoff=True` giving delay `2 ^ retries`.  Mirrors
error_handlers.py lines 71-131. -/
def wrapperStep (max_retries retries : Nat) (body : BodyOutcome α) : TaskOutcome α :=
  match body with
  | .ok a => .result a
  | .raises e =>
    match e.cls with
    | .retrySignal => .raisedOut e
    | .transient =>
        if retries < max_retries then
          .retryRaised (2 ^ retries)
        else
          .failedDict ⟨"failed", e.msg, e.etype, true⟩
    | .fatal => .failedDict ⟨"failed", e.msg, e.etype, false⟩

/-- Accumulated view of running a wrapped task to completion through the
queue: number of body executions, the list of backoff delays of the
rescheduled retries, and the final outcome. -/
structure RunResult (α : Type) where
  executions : Nat
  delays : List Nat
  final : TaskOutcome α
deriving DecidableEq

/-- Queue-level run loop: execute the wrapped body; while the wrapper raises
`task_self.retry`, the queue redelivers with the retry counter incremented.
`fuel` bounds the recursion (the wrapper never reschedules once
`retries ≥ max_retries`, so `fuel = max_retries` suffices). -/
def runAux (max_retries : Nat) (bodies : Nat → BodyOutcome α) : Nat → Nat → RunResult α
  | retries, 0 => ⟨1, [], wrapperStep max_retries retries (bodies retries)⟩
  | retries, fuel+1 =>
    match wrapperStep max_retries retries (bodies retries) with
    | .retryRaised d =>
        let r := runAux max_retries bodies (retries+1) fuel
        ⟨r.executions + 1, d :: r.delays, r.final⟩
    | out => ⟨1, [], out⟩

/-- Run a task wrapped with `task_error_handler(max_retries)` to completion,
where `bodies i` is the outcome of the body on the execution with retry
counter `i`. -/
def runTask (max_retries : Nat) (bodies : Nat → BodyOutcome α) : RunResult α :=
  runAux max_retries bodies 0 max_retries

/-! ### Persisted status values and database updates (src/core/models.py,
and the `VideoGeneration.objects.filter(id).update(...)` calls in
src/core/tasks.py) -/

/-- The status strings the pipeline code ever mentions for
`VideoGeneration.status` (`processing_image` appears in the specification's
value set; the code never writes it). -/
inductive StatusV
  | pending
  | processing
  | processing_image
  | processing_video
  | completed
  | failed
deriving DecidableEq, BEq

/-- A `VideoGeneration.objects.filter(id=..).update(..)` call, by the three
shapes occurring in tasks.py: a bare status write, a status write together
with an error message, and the success write
`update(status='completed', output_video_url=url, error_message=None)`
which also clears any stale error message. -/
inductive DbUpdate
  | setStatus (s : StatusV)
  | setStatusErr (s : StatusV) (msg : String)
  | setCompletedClearErr (url : String)
deriving DecidableEq

/-- The status value written by a database update. -/
def DbUpdate.statusOf : DbUpdate → StatusV
  | .setStatus s => s
  | .setStatusErr s _ => s
  | .setCompletedClearErr _ => .completed

/-! ### Data dictionaries flowing through the chain -/

/-- A Python string field of a data dict that may be absent (`none`) or
present (possibly empty, hence falsy). -/
def present : Option String → Bool
  | none => false
  | some s => !(s == "")

/-- Python `str.lower()`, character-wise (kernel-computable form). -/
def pyLower (s : String) : String := String.mk (s.data.map Char.toLower)

/-- Python `str.endswith(suffix)`, by character-list suffix matching
(kernel-computable form). -/
def pyEndsWith (s suffix : String) : Bool := suffix.data.isSuffixOf s.data

/-- The `supported_ext` tuple of `edit_product_image` (tasks.py line 98),
also used by the skip-image-edit check in
`_continue_with_image_edit_callback` (line 314). -/
def supported_ext : List String := [".png", ".jpg", ".jpeg", ".webp"]

/-- `data['file_url'].lower().endswith(supported_ext)`. -/
def hasSupportedExt (url : String) : Bool :=
  supported_ext.any (fun ext => pyEndsWith (pyLower url) ext)

/-- The slice of the original request payload stored by the orchestrator in
the Redis backend under `video_gen_data_<orchestrator_task_id>` that the
continuations read back (tasks.py lines 278-338, 410-424). -/
structure PipelineState where
  video_generation_id : Option String
  skip_image_editing : Bool
  file_url : String
  email : String
  product_title : String
deriving DecidableEq

/-- The result dictionary handed to `_continue_with_image_edit_callback` by
the prompt task (always a dict: every path of the wrapped prompt task
returns one). -/
structure PromptResult where
  status : String
  prompt_text : String
  prompt_id : String
  error : Option String
deriving DecidableEq

/-- The result dictionary handed to `_continue_with_video_generation_callback`
by the wrapped image-edit task: the spread of its input data plus `status`
and, on success, `edited_image_url`. -/
structure ImageResult where
  status : String
  edited_image_url : Option String
  prompt : Option String
  prompt_id : Option String
  message : Option String
deriving DecidableEq

/-- Input dictionary of `edit_product_image`. -/
structure ImageEditData where
  file_url : Option String
  prompt : Option String
  prompt_id : Option String
deriving DecidableEq

/-- Input dictionary of `generate_product_video` (duration field omitted:
it is only forwarded to the collaborator). -/
structure VideoGenData where
  video_generation_id : Option String
  edited_image_url : Option String
  prompt : Option String
  email : Option String
  product_title : Option String
deriving DecidableEq

/-- A task-queue submission performed by a callback or stage: the chained
image-edit task (with its video-generation callback), the video-generation
task, or the notifier email task. -/
inductive Sched
  | imageEditChain (d : ImageEditData)
  | videoGen (d : VideoGenData)
  | notifier (video_generation_id : String)
deriving DecidableEq

/-- What a callback invocation returns to the queue: a returned result
dictionary (by its `status` entry) or a raised exception (the callbacks are
not wrapped by `task_error_handler`). -/
inductive CbOutcome
  | returned (status : String)
  | raised (e : Exc)
deriving DecidableEq

/-- Observable effects of one callback invocation. -/
structure CbEffects where
  updates : List DbUpdate
  scheduled : List Sched
  outcome : CbOutcome
deriving DecidableEq

/-! ### Stage bodies (tasks.py) -/

/-- The success dictionary returned by `edit_product_image`. -/
structure EditSuccess where
  status : String
  edited_image_url : String
deriving DecidableEq

/-- One run of the `edit_product_image` body (tasks.py lines 79-127),
recording whether the image-editing collaborator was invoked.  `editImage`
is the collaborator oracle; any exception it raises is re-raised by the
task as `CeleryTaskError` (line 127), hence fatal to the retry wrapper. -/
def edit_product_image_body (data : ImageEditData) (editImage : Except String String) :
    Bool × BodyOutcome EditSuccess :=
  let missing :=
    (if present data.file_url then [] else ["file_url"]) ++
    (if present data.prompt then [] else ["prompt"]) ++
    (if present data.prompt_id then [] else ["prompt_id"])
  if !missing.isEmpty then
    (false, .raises ⟨.fatal,
      "Missing required fields for image editing: " ++ String.intercalate ", " missing,
      "CeleryTaskError"⟩)
  else if !hasSupportedExt (data.file_url.getD "") then
    (false, .raises ⟨.fatal,
      "Unsupported input file type for image editing: " ++ pyLower (data.file_url.getD "") ++
        ". Please upload a PNG/JPG image instead of a video or other format.",
      "CeleryTaskError"⟩)
  else
    match editImage with
    | .ok url => (true, .ok ⟨"success", url⟩)
    | .error m => (true, .raises ⟨.fatal, "Image editing failed: " ++ m, "CeleryTaskError"⟩)

/-- Outcome of the Fal AI call inside `generate_product_video`.  No
transient-classified exception can escape the body: `generate_svd_video`
wraps every exception in `FalServiceError`, database errors are Django
exceptions outside the wrapper's `retry_for` tuple, and the notifier
trigger is guarded by its own try/except. -/
inductive FalOutcome
  | success (url : String)
  | falError (msg : String)
  | otherFatal (msg : String) (etype : String)
deriving DecidableEq

/-- The success dictionary returned by `generate_product_video`. -/
structure VideoSuccess where
  status : String
  video_url : String
deriving DecidableEq

/-- Observable effects of one run of the `generate_product_video` body. -/
structure VideoStageRun where
  updates : List DbUpdate
  scheduled : List Sched
  outcome : BodyOutcome VideoSuccess
deriving DecidableEq

/-- One run of the `generate_product_video` body (tasks.py lines 130-258):
validate, call Fal AI, update the run record, and on success schedule the
notifier email task when an email address is present. -/
def generate_product_video_body (data : VideoGenData) (fal : FalOutcome) : VideoStageRun :=
  match data.video_generation_id with
  | none => ⟨[], [],
      .raises ⟨.fatal, "video_generation_id missing from input data for video generation.",
        "CeleryTaskError"⟩⟩
  | some vgid =>
    let missing :=
      (if present data.edited_image_url then [] else ["edited_image_url"]) ++
      (if present data.prompt then [] else ["prompt"]) ++
      (if present data.email then [] else ["email"]) ++
      (if present data.product_title then [] else ["product_title"])
    if !missing.isEmpty then
      let m := "Missing required fields for video generation: " ++ String.intercalate ", " missing
      ⟨[.setStatusErr .failed (m.take 255)], [], .raises ⟨.fatal, m, "CeleryTaskError"⟩⟩
    else
      match fal with
      | .success url =>
        ⟨[.setCompletedClearErr url],
         if present data.email then [.notifier vgid] else [],
         .ok ⟨"success", url⟩⟩
      | .falError m =>
        ⟨[.setStatusErr .failed ("Fal AI Error: " ++ m.take 200)], [],
         .raises ⟨.fatal, m, "FalServiceError"⟩⟩
      | .otherFatal m t =>
        ⟨[.setStatusErr .failed ("Unexpected Error: " ++ m.take 200)], [],
         .raises ⟨.fatal, m, t⟩⟩

/-! ### Continuation callbacks (tasks.py) -/

/-- `_continue_with_image_edit_callback` (tasks.py lines 266-391).
`stateStore` is the value of the Redis key `video_gen_data_<parent>` (absent
when missing or TTL-expired); `schedOk` tells whether the queue submission
at the end succeeds.  The callback is not wrapped by `task_error_handler`,
so raised exceptions propagate to the queue. -/
def continue_with_image_edit (stateStore : Option PipelineState)
    (prompt_result : PromptResult) (schedOk : Bool) : CbEffects :=
  match stateStore with
  | none => ⟨[], [],
      .raised ⟨.fatal, "Critical Error: Original data missing from backend state.",
        "CeleryTaskError"⟩⟩
  | some st =>
    match st.video_generation_id with
    | none => ⟨[], [],
        .raised ⟨.fatal,
          "Critical Error: Could not parse backend state - video_generation_id missing from backend state",
          "CeleryTaskError"⟩⟩
    | some vgid =>
      if !(prompt_result.status == "success") then
        ⟨[.setStatusErr .failed
            ("Prompt generation failed: " ++ prompt_result.error.getD "Unknown error")],
         [], .returned "FAILURE"⟩
      else if st.skip_image_editing then
        if !hasSupportedExt st.file_url then
          ⟨[.setStatusErr .failed
              (("Cannot skip image editing for non-image file format: " ++ st.file_url ++
                ". Only PNG, JPG, and WEBP formats are supported for direct video generation.").take 255)],
           [], .returned "FAILURE"⟩
        else if schedOk then
          ⟨[.setStatus .processing_video],
           [.videoGen ⟨some vgid, some st.file_url, some prompt_result.prompt_text,
              some st.email, some st.product_title⟩],
           .returned "SUCCESS"⟩
        else
          ⟨[.setStatus .processing_video,
            .setStatusErr .failed "Failed to start video generation task (skipped editing)"],
           [], .raised ⟨.fatal, "Failed to start video generation task (skipped editing)",
             "CeleryTaskError"⟩⟩
      else if schedOk then
        ⟨[.setStatus .processing],
         [.imageEditChain ⟨some st.file_url, some prompt_result.prompt_text,
            some prompt_result.prompt_id⟩],
         .returned "SUCCESS"⟩
      else
        ⟨[.setStatus .processing,
          .setStatusErr .failed "Failed to chain image editing task"],
         [], .raised ⟨.fatal, "Failed to chain image editing task", "CeleryTaskError"⟩⟩

/-- `_continue_with_video_generation_callback` (tasks.py lines 394-524).
`downloadOk` models the `requests.get` download of the edited image,
`headBad` models the accessibility check raising on a non-200 response
(a network error during that check is only logged), `schedOk` the final
queue submission.  Error messages written through the generic exception
handler (line 519) are abstracted to `"Callback Error: " ++` the exception
message truncated to 200 characters. -/
def continue_with_video_generation (stateStore : Option PipelineState)
    (image_result : ImageResult) (downloadOk headBad schedOk : Bool) : CbEffects :=
  match stateStore with
  | none => ⟨[], [],
      .raised ⟨.fatal, "Could not retrieve original data from backend key", "CeleryTaskError"⟩⟩
  | some st =>
    match st.video_generation_id with
    | none => ⟨[], [],
        .raised ⟨.fatal, "video_generation_id not found in backend data", "CeleryTaskError"⟩⟩
    | some vgid =>
      if image_result.status == "error" then
        ⟨[.setStatusErr .failed
            ("Image Editing Error: " ++ (image_result.message.getD "Image editing failed.").take 250)],
         [], .returned "error"⟩
      else
        match image_result.edited_image_url with
        | none =>
          ⟨[.setStatusErr .failed
              ("Callback Error: " ++ ("Edited image URL not found in image_result for " ++ vgid).take 200)],
           [], .raised ⟨.fatal, "Edited image URL not found in image_result for " ++ vgid,
             "CeleryTaskError"⟩⟩
        | some url =>
          if !downloadOk then
            ⟨[.setStatusErr .failed
                ("Callback Error: " ++ ("Failed to download edited image for " ++ vgid).take 200)],
             [], .raised ⟨.fatal, "Failed to download edited image for " ++ vgid,
               "CeleryTaskError"⟩⟩
          else if headBad then
            ⟨[.setStatusErr .failed
                ("Callback Error: " ++ ("Failed to upload edited image for " ++ vgid ++ " to S3").take 200)],
             [], .raised ⟨.fatal, "Failed to upload edited image for " ++ vgid ++ " to S3",
               "CeleryTaskError"⟩⟩
          else if schedOk then
            ⟨[.setStatus .processing_video],
             [.videoGen ⟨some vgid, some url, image_result.prompt, some st.email,
                some st.product_title⟩],
             .returned "SUCCESS"⟩
          else
            ⟨[.setStatus .processing_video,
              .setStatusErr .failed "Callback Error: failed to queue video generation task"],
             [], .raised ⟨.fatal, "failed to queue video generation task", "CeleryTaskError"⟩⟩

/-! ### Whole-run status trace (orchestrator `process_complete_video_generation`,
tasks.py lines 599-668, composed with the chain it starts) -/

/-- Oracle fixing the outcome of every external interaction of one pipeline
run.  `st` is the payload the orchestrator serialized into the state store;
`promptOutcome` is the prompt service call (`error` covers every exception,
all caught inside the prompt task body); `editImage` the image-editing
collaborator; `fal` the video collaborator. -/
structure RunOracle where
  st : PipelineState
  stateWriteOk : Bool
  chainOk : Bool
  promptOutcome : Except String (String × String)
  stateAtCont1 : Bool
  cont1SchedOk : Bool
  editImage : Except String String
  stateAtCont2 : Bool
  downloadOk : Bool
  headBad : Bool
  cont2SchedOk : Bool
  fal : FalOutcome

/-- The dictionary the wrapped prompt task hands to the first continuation:
`generate_prompt_with_openrouter` (tasks.py lines 32-77) catches every
prompt-service exception and returns an error payload, so the continuation
always receives a dict. -/
def promptResultOf : Except String (String × String) → PromptResult
  | .ok (t, i) => ⟨"success", t, i, none⟩
  | .error e => ⟨"failed", "", "", some ("Prompt generation/retrieval failed: " ++ e)⟩

/-- The dictionary the wrapped image-edit task hands to the second
continuation: the success dict spreads the input data, while a wrapper
failure dict carries only `status`/`error` entries. -/
def imageResultOf (d : ImageEditData) (editImage : Except String String) : ImageResult :=
  match wrapperStep 2 0 (edit_product_image_body d editImage).2 with
  | .result a => ⟨a.status, some a.edited_image_url, d.prompt, d.prompt_id, none⟩
  | .failedDict fd => ⟨fd.status, none, none, none, none⟩
  | _ => ⟨"failed", none, none, none, none⟩

/-- The sequence of status values persisted for one run, in the order they
are written: the orchestrator creates the record in `pending`
(tasks.py line 621), then each continuation and stage appends its updates.
A stage or continuation only runs when the previous component actually
submitted it to the queue. -/
def runTrace (o : RunOracle) : List StatusV :=
  StatusV.pending ::
  if !o.stateWriteOk then [StatusV.failed]
  else if !o.chainOk then [StatusV.failed]
  else
    let c1 := continue_with_image_edit (if o.stateAtCont1 then some o.st else none)
      (promptResultOf o.promptOutcome) o.cont1SchedOk
    c1.updates.map DbUpdate.statusOf ++
    match c1.scheduled.head? with
    | some (.imageEditChain d) =>
        let c2 := continue_with_video_generation (if o.stateAtCont2 then some o.st else none)
          (imageResultOf d o.editImage) o.downloadOk o.headBad o.cont2SchedOk
        c2.updates.map DbUpdate.statusOf ++
        (match c2.scheduled.head? with
         | some (.videoGen vd) => (generate_product_video_body vd o.fal).updates.map DbUpdate.statusOf
         | _ => [])
    | some (.videoGen vd) => (generate_product_video_body vd o.fal).updates.map DbUpdate.statusOf
    | _ => []

/-- The six status values of the specification. -/
def statusValues : List StatusV :=
  [.pending, .processing, .processing_image, .processing_video, .completed, .failed]

/-- Position of a non-failed status in the forward order
`pending → processing[_image] → processing_video → completed`. -/
def StatusV.rank : StatusV → Nat
  | .pending => 0
  | .processing => 1
  | .processing_image => 1
  | .processing_video => 2
  | .completed => 3
  | .failed => 4

/-- One status update `s → t` is forward: never out of a terminal state,
and either into `failed` or strictly up the rank order. -/
def forwardOk (s t : StatusV) : Bool :=
  !(s == .completed) && !(s == .failed) && (t == .failed || s.rank < t.rank)

/-- Every consecutive pair of the trace is a forward transition. -/
def chainForward : List StatusV → Bool
  | [] => true
  | [_] => true
  | a :: b :: r => forwardOk a b && chainForward (b :: r)

/-! ### The Fal AI polling loop (src/core/services/fal_service.py,
`generate_svd_video` lines 119-173) -/

/-- One status poll as the loop body sees it: a JSON body with a `status`
key (with `httpOk` false when `raise_for_status` would throw afterwards), a
response without a usable `status` key (missing key or JSON decode error),
or a network error raised by the GET itself. -/
inductive PollObs
  | got (status : String) (response_url : Option String) (httpOk : Bool)
  | noStatus (httpOk : Bool)
  | netErr
deriving DecidableEq

/-- Result of the polling loop. -/
inductive PollResult
  | completedAt (attempt : Nat) (response_url : Option String)
  | jobFailed (status : String)
  | statusPollsExhausted
  | timedOut
deriving DecidableEq

/-- The polling loop with `remaining` attempts left out of `maxPolls`;
attempt index `i = maxPolls - remaining`.  `COMPLETED` breaks out,
`FAILED`/`ERROR` raise `FalServiceError`, any other status keeps polling;
a `requests.RequestException` (network error or bad HTTP status) keeps
polling unless it happens on the final attempt, which raises
`FalServiceError` (line 167); running out of attempts without completion
raises the timeout `FalServiceError` (line 173). -/
def pollLoopAux (polls : Nat → PollObs) (maxPolls : Nat) : Nat → PollResult
  | 0 => .timedOut
  | remaining+1 =>
    let i := maxPolls - (remaining+1)
    let next := pollLoopAux polls maxPolls remaining
    match polls i with
    | .got s ru httpOk =>
      if s == "COMPLETED" then .completedAt i ru
      else if s == "FAILED" || s == "ERROR" then .jobFailed s
      else if httpOk then next
      else if remaining == 0 then .statusPollsExhausted
      else next
    | .noStatus httpOk =>
      if httpOk then next
      else if remaining == 0 then .statusPollsExhausted
      else next
    | .netErr =>
      if remaining == 0 then .statusPollsExhausted
      else next

/-- `max_polls = 45` (fal_service.py line 119). -/
def max_polls : Nat := 45

/-- Run the polling loop from the first attempt. -/
def pollLoop (polls : Nat → PollObs) (maxPolls : Nat) : PollResult :=
  pollLoopAux polls maxPolls maxPolls

/-- The poll observed a terminal collaborator state in the sense of the
specification (`completed`, `failed`, `cancelled` or `error`). -/
def obsTerminal : PollObs → Bool
  | .got s _ _ => s == "COMPLETED" || (s == "FAILED" || (s == "CANCELLED" || s == "ERROR"))
  | _ => false

/-- Both non-terminal loop exits raise a `FalServiceError` reporting
exhaustion of the poll budget (timeout class). -/
def timeoutClass : PollResult → Bool
  | .statusPollsExhausted => true
  | .timedOut => true
  | _ => false

/-! ### Prompt records and the prompt service
(src/core/models.py `ProductPrompt`, src/core/services/prompt_service.py) -/

/-- A persisted `ProductPrompt` row (fields relevant to dedup and tagging;
`is_approved` defaults to `True`, `task_id` to `NULL`). -/
structure PromptRec where
  id : Nat
  product_title : String
  product_description : String
  email : String
  prompt_text : String
  model_used : String
  is_approved : Bool
  created_at : Nat
  task_id : Option String
deriving DecidableEq

/-- The filter of `ProductPrompt.find_similar_prompt` (models.py lines
66-69): case-insensitive exact title match (`product_title__iexact`) with
the approval flag set. -/
def titleMatches (title : String) (p : PromptRec) : Bool :=
  pyLower p.product_title == pyLower title && p.is_approved

/-- `find_similar_prompt`: among the matching rows, the first under
`order_by('-created_at')`, i.e. a row of maximal `created_at`. -/
def find_similar_prompt (db : List PromptRec) (title : String) : Option PromptRec :=
  (db.filter (titleMatches title)).foldl
    (fun acc p =>
      match acc with
      | none => some p
      | some q => if p.created_at > q.created_at then some p else some q)
    none

/-- Outcome of the OpenRouter prompt-generation call:
`prompt` text and `model_used`, or an `OpenRouterError`. -/
inductive GenOutcome
  | genOk (text model_used : String)
  | genErr (msg : String)
deriving DecidableEq

/-- Result of one `PromptService.get_or_generate_prompt` call. -/
structure PromptServiceRun where
  result : Except String (PromptRec × Bool)
  db : List PromptRec
  collaboratorCalls : Nat

/-- `PromptService.get_or_generate_prompt` (prompt_service.py lines 43-113):
validate, look up an approved exact-match prompt unless `force_new`, and
otherwise call OpenRouter and persist a new record.  `newId` and `now` feed
the generated primary key and `created_at` default; the new row is saved
with `is_approved = true` (model default) and no `task_id`. -/
def get_or_generate_prompt (db : List PromptRec) (product_title product_description email : String)
    (force_new : Bool) (gen : GenOutcome) (newId now : Nat) : PromptServiceRun :=
  if product_title == "" || product_description == "" || email == "" then
    ⟨.error "Product title, description, and email are required", db, 0⟩
  else
    let fresh : PromptServiceRun :=
      match gen with
      | .genOk text mu =>
        let p : PromptRec :=
          ⟨newId, product_title, product_description, email, text, mu, true, now, none⟩
        ⟨.ok (p, true), db ++ [p], 1⟩
      | .genErr m => ⟨.error m, db, 1⟩
    if !force_new then
      match find_similar_prompt db product_title with
      | some p => ⟨.ok (p, false), db, 0⟩
      | none => fresh
    else fresh

/-- Result dictionary of the `generate_prompt_with_openrouter` task body. -/
structure PromptTaskResult where
  status : String
  prompt_text : String
  prompt_id : Option Nat
  error : Option String
deriving DecidableEq

/-- The `generate_prompt_with_openrouter` task body (tasks.py lines 32-77):
calls the prompt service with `force_new` left at its default `False`, and
returns a success dictionary or, on any service exception, an error
payload.  The task never writes the prompt record again afterwards: in
particular `run_task_id` (the Celery task identifier) is not attached to
the created record. -/
def generate_prompt_with_openrouter (db : List PromptRec)
    (product_title product_description email : String) (run_task_id : String)
    (gen : GenOutcome) (newId now : Nat) : PromptTaskResult × List PromptRec :=
  let r := get_or_generate_prompt db product_title product_description email false gen newId now
  match r.result with
  | .ok (p, _) => (⟨"success", p.prompt_text, some p.id, none⟩, r.db)
  | .error e =>
    (⟨"failed", "", none, some ("Prompt generation/retrieval failed: " ++ e)⟩, r.db)

/-! ### Helper views used by the theorems -/

/-- The standardized dictionary `task_error_handler` builds for a
non-transient exception. -/
def failedDictOf (e : Exc) : FailedDict := ⟨"failed", e.msg, e.etype, false⟩

/-- The callback queued the chained image-edit task. -/
def schedulesImageEdit (c : CbEffects) : Bool :=
  c.scheduled.any fun s => match s with | .imageEditChain _ => true | _ => false

/-- The callback queued the video-generation task. -/
def schedulesVideoGen (c : CbEffects) : Bool :=
  c.scheduled.any fun s => match s with | .videoGen _ => true | _ => false

/-- The callback wrote a `failed` status. -/
def marksFailed (c : CbEffects) : Bool :=
  c.updates.any fun u => u.statusOf == .failed

/-- Exactly one of three booleans is set. -/
def exactlyOne (a b c : Bool) : Bool :=
  (cond a 1 0) + (cond b 1 0) + (cond c 1 0) == 1

/-! ## Theorems -/

/-- Running the retry loop over a body that raises a transient exception on
every execution: one execution per retry level until the ceiling, backoff
`2 ^ retries` per reschedule, and a final exhausted failure dictionary. -/
theorem runAux_all_transient {α : Type} (bodies : Nat → BodyOutcome α)
    (h : ∀ i, ∃ m t, bodies i = .raises ⟨.transient, m, t⟩) (mr : Nat) :
    ∀ fuel retries, retries + fuel = mr →
      (runAux mr bodies retries fuel).executions = fuel + 1 ∧
      (runAux mr bodies retries fuel).delays =
        (List.range fuel).map (fun k => 2 ^ (retries + k)) ∧
      ∃ m t, (runAux mr bodies retries fuel).final =
        .failedDict ⟨"failed", m, t, true⟩ := by
  intro fuel
  induction fuel with
  | zero =>
    intro retries hr
    obtain ⟨m, t, hb⟩ := h retries
    have hlt : ¬ retries < mr := by omega
    refine ⟨rfl, rfl, m, t, ?_⟩
    simp [runAux, wrapperStep, hb, hlt]
  | succ f ih =>
    intro retries hr
    obtain ⟨m, t, hb⟩ := h retries
    have hlt : retries < mr := by omega
    have step : wrapperStep mr retries (bodies retries) = .retryRaised (2 ^ retries) := by
      simp [wrapperStep, hb, hlt]
    obtain ⟨ihe, ihd, ihf⟩ := ih (retries + 1) (by omega)
    refine ⟨?_, ?_, ?_⟩
    · simp [runAux, step, ihe]
    · simp only [runAux, step]
      rw [List.range_succ_eq_map]
      simp only [List.map_cons, List.map_map, ihd]
      congr 1
      apply List.map_congr_left
      intro k _
      simp only [Function.comp_apply]
      congr 1
      omega
    · simpa [runAux, step] using ihf

/-- Claim C2: a stage wrapped with max-retries=3 whose body raises a transient
exception on every execution is executed exactly 4 times (1 initial + 3
retries), each retry is rescheduled after `2 ^ attempt` time units
(attempts counted from 0), and the final outcome is the returned failure
dictionary with `status = "failed"` and `retries_exhausted = true`, not a
raised exception. -/
theorem retry_ceiling {α : Type} (bodies : Nat → BodyOutcome α)
    (h : ∀ i, ∃ m t, bodies i = .raises ⟨.transient, m, t⟩) :
    (runTask 3 bodies).executions = 4 ∧
    (runTask 3 bodies).delays = [2 ^ 0, 2 ^ 1, 2 ^ 2] ∧
    ∃ m t, (runTask 3 bodies).final = .failedDict ⟨"failed", m, t, true⟩ := by
  obtain ⟨he, hd, hf⟩ := runAux_all_transient bodies h 3 3 0 rfl
  refine ⟨?_, ?_, ?_⟩
  · unfold runTask
    rw [he]
  · unfold runTask
    rw [hd]
    rfl
  · unfold runTask
    exact hf

/-- Witness for C2 at the constant transient body. -/
theorem retry_ceiling_witness :
    (∀ i, ∃ m t, (fun _ : Nat => BodyOutcome.raises (α := Unit) ⟨.transient, "boom", "ConnectionError"⟩) i
        = .raises ⟨.transient, m, t⟩) ∧
    ((runTask 3 (fun _ : Nat => BodyOutcome.raises (α := Unit) ⟨.transient, "boom", "ConnectionError"⟩)).executions = 4 ∧
     (runTask 3 (fun _ : Nat => BodyOutcome.raises (α := Unit) ⟨.transient, "boom", "ConnectionError"⟩)).delays = [2 ^ 0, 2 ^ 1, 2 ^ 2] ∧
     ∃ m t, (runTask 3 (fun _ : Nat => BodyOutcome.raises (α := Unit) ⟨.transient, "boom", "ConnectionError"⟩)).final
        = .failedDict ⟨"failed", m, t, true⟩) :=
  ⟨fun _ => ⟨"boom", "ConnectionError", rfl⟩,
   retry_ceiling _ (fun _ => ⟨"boom", "ConnectionError", rfl⟩)⟩

/-- Claim C8: for every exception a stage body raises other than the queue
runtime's own retry signal, the wrapper never lets it propagate out of the
stage entry point, and a non-transient (fatal) exception is converted
immediately into the returned failure dictionary carrying the error message
and error type. -/
theorem propagation_policy {α : Type} (mr r : Nat) (e : Exc) (h : e.cls ≠ .retrySignal) :
    (∀ e2, wrapperStep (α := α) mr r (.raises e) ≠ .raisedOut e2) ∧
    (e.cls = .fatal →
      wrapperStep (α := α) mr r (.raises e) = .failedDict (failedDictOf e)) := by
  constructor
  · intro e2
    cases hc : e.cls with
    | retrySignal => exact absurd hc h
    | transient =>
      by_cases hlt : r < mr <;> simp [wrapperStep, hc, hlt]
    | fatal => simp [wrapperStep, hc]
  · intro hc
    simp [wrapperStep, hc, failedDictOf]

/-- Witness for C8 at a concrete fatal exception. -/
theorem propagation_policy_witness :
    (Exc.mk .fatal "boom" "ValueError").cls ≠ ExcClass.retrySignal ∧
    ((∀ e2, wrapperStep (α := Unit) 3 0 (.raises ⟨.fatal, "boom", "ValueError"⟩) ≠ .raisedOut e2) ∧
     ((Exc.mk .fatal "boom" "ValueError").cls = .fatal →
       wrapperStep (α := Unit) 3 0 (.raises ⟨.fatal, "boom", "ValueError"⟩)
         = .failedDict (failedDictOf ⟨.fatal, "boom", "ValueError"⟩))) :=
  ⟨by simp, propagation_policy 3 0 ⟨.fatal, "boom", "ValueError"⟩ (by simp)⟩

/-- A fatal exception is converted by one wrapper execution into the
standardized failure dictionary. -/
theorem wrapperStep_fatal {α : Type} (mr r : Nat) (e : Exc) (he : e.cls = .fatal) :
    wrapperStep (α := α) mr r (.raises e) = .failedDict (failedDictOf e) := by
  simp [wrapperStep, he, failedDictOf]

/-- Claim C10: an `edit_product_image` input whose source-image URL does not end
case-insensitively in .png, .jpg, .jpeg or .webp, or that is missing any of
`file_url`, `prompt` or `prompt_id` (or holds it empty), makes the stage
body raise a fatal error without invoking the image-editing collaborator,
and the retry wrapper converts that exception into the returned failure
dictionary. -/
theorem edit_input_validation (data : ImageEditData) (editImage : Except String String) (r : Nat)
    (h : present data.file_url = false ∨ present data.prompt = false ∨
         present data.prompt_id = false ∨ hasSupportedExt (data.file_url.getD "") = false) :
    (edit_product_image_body data editImage).1 = false ∧
    ∃ e, (edit_product_image_body data editImage).2 = .raises e ∧ e.cls = .fatal ∧
      wrapperStep 2 r (edit_product_image_body data editImage).2 = .failedDict (failedDictOf e) := by
  have hcol : (edit_product_image_body data editImage).1 = false ∧
      ∃ m, (edit_product_image_body data editImage).2 =
        .raises ⟨.fatal, m, "CeleryTaskError"⟩ := by
    cases hf : present data.file_url with
    | false =>
      simp only [edit_product_image_body, hf]
      simp
    | true =>
      cases hp : present data.prompt with
      | false =>
        simp only [edit_product_image_body, hf, hp]
        simp
      | true =>
        cases hi : present data.prompt_id with
        | false =>
          simp only [edit_product_image_body, hf, hp, hi]
          simp
        | true =>
          have hx : hasSupportedExt (data.file_url.getD "") = false := by
            rcases h with h | h | h | h
            · rw [h] at hf; cases hf
            · rw [h] at hp; cases hp
            · rw [h] at hi; cases hi
            · exact h
          simp only [edit_product_image_body, hf, hp, hi, hx]
          simp
  obtain ⟨h1, m, h2⟩ := hcol
  refine ⟨h1, ⟨.fatal, m, "CeleryTaskError"⟩, h2, rfl, ?_⟩
  rw [h2]
  exact wrapperStep_fatal 2 r _ rfl

/-- Claim C3 counterexample: a continuation invoked while the State Store entry
is missing performs no database update at all — in particular it does not
mark the run failed as the claim states. -/
theorem state_loss_counterexample :
    (continue_with_image_edit none ⟨"success", "p", "pid", none⟩ true).updates = [] ∧
    (continue_with_video_generation none ⟨"success", some "u", some "p", some "pid", none⟩
        true false true).updates = [] :=
  ⟨rfl, rfl⟩

/-- Claim C3 amended: a continuation whose run identifier has no entry in the
State Store fails fatally with a distinct state-missing `CeleryTaskError`
and schedules no further stage, but it cannot and does not mark the run
failed — the run identifier lives only in the missing state, so no status
update is performed. -/
theorem state_loss_amended : ∀ (pr : PromptResult) (k : Bool) (img : ImageResult)
    (dl hb sk : Bool),
    (continue_with_image_edit none pr k).updates = [] ∧
    (continue_with_image_edit none pr k).scheduled = [] ∧
    (continue_with_image_edit none pr k).outcome =
      .raised ⟨.fatal, "Critical Error: Original data missing from backend state.",
        "CeleryTaskError"⟩ ∧
    (continue_with_video_generation none img dl hb sk).updates = [] ∧
    (continue_with_video_generation none img dl hb sk).scheduled = [] ∧
    (continue_with_video_generation none img dl hb sk).outcome =
      .raised ⟨.fatal, "Could not retrieve original data from backend key", "CeleryTaskError"⟩ :=
  fun _ _ _ _ _ _ => ⟨rfl, rfl, rfl, rfl, rfl, rfl⟩

/-- Claim C6: when the video collaborator returns a video reference,
`generate_product_video` writes the single update
`status='completed', output_video_url=url, error_message=None` (setting the
output reference and clearing any stale error) and schedules the notifier;
on a collaborator failure it writes `status='failed'` with the error
message truncated to 200 characters and schedules nothing — so the
notifier is scheduled only in the success case. -/
theorem video_stage_side_effects (data : VideoGenData) (vgid : String) (fal : FalOutcome)
    (hid : data.video_generation_id = some vgid)
    (h1 : present data.edited_image_url = true) (h2 : present data.prompt = true)
    (h3 : present data.email = true) (h4 : present data.product_title = true) :
    (∀ url, fal = .success url →
       (generate_product_video_body data fal).updates = [.setCompletedClearErr url] ∧
       (generate_product_video_body data fal).scheduled = [.notifier vgid]) ∧
    (∀ m, fal = .falError m →
       (generate_product_video_body data fal).updates =
         [.setStatusErr .failed ("Fal AI Error: " ++ m.take 200)] ∧
       (generate_product_video_body data fal).scheduled = []) ∧
    (∀ m t, fal = .otherFatal m t →
       (generate_product_video_body data fal).updates =
         [.setStatusErr .failed ("Unexpected Error: " ++ m.take 200)] ∧
       (generate_product_video_body data fal).scheduled = []) ∧
    ((generate_product_video_body data fal).scheduled ≠ [] → ∃ url, fal = .success url) := by
  refine ⟨?_, ?_, ?_, ?_⟩
  · intro url hf
    subst hf
    simp [generate_product_video_body, hid, h1, h2, h3, h4]
  · intro m hf
    subst hf
    simp [generate_product_video_body, hid, h1, h2, h3, h4]
  · intro m t hf
    subst hf
    simp [generate_product_video_body, hid, h1, h2, h3, h4]
  · intro hne
    cases fal with
    | success url => exact ⟨url, rfl⟩
    | falError m =>
      exact absurd (by simp [generate_product_video_body, hid, h1, h2, h3, h4]) hne
    | otherFatal m t =>
      exact absurd (by simp [generate_product_video_body, hid, h1, h2, h3, h4]) hne

/-- Witness for C6 at a concrete successful run. -/
theorem video_stage_side_effects_witness :
    (VideoGenData.mk (some "vg-1") (some "https://img/e.png") (some "p") (some "a@b.com")
        (some "Lamp")).video_generation_id = some "vg-1" ∧
    present (VideoGenData.mk (some "vg-1") (some "https://img/e.png") (some "p") (some "a@b.com")
        (some "Lamp")).edited_image_url = true ∧
    ((∀ url, FalOutcome.success "https://v/out.mp4" = .success url →
       (generate_product_video_body
          ⟨some "vg-1", some "https://img/e.png", some "p", some "a@b.com", some "Lamp"⟩
          (.success "https://v/out.mp4")).updates = [.setCompletedClearErr url] ∧
       (generate_product_video_body
          ⟨some "vg-1", some "https://img/e.png", some "p", some "a@b.com", some "Lamp"⟩
          (.success "https://v/out.mp4")).scheduled = [.notifier "vg-1"]) ∧
     (∀ m, FalOutcome.success "https://v/out.mp4" = .falError m →
       (generate_product_video_body
          ⟨some "vg-1", some "https://img/e.png", some "p", some "a@b.com", some "Lamp"⟩
          (.success "https://v/out.mp4")).updates =
            [.setStatusErr .failed ("Fal AI Error: " ++ m.take 200)] ∧
       (generate_product_video_body
          ⟨some "vg-1", some "https://img/e.png", some "p", some "a@b.com", some "Lamp"⟩
          (.success "https://v/out.mp4")).scheduled = []) ∧
     (∀ m t, FalOutcome.success "https://v/out.mp4" = .otherFatal m t →
       (generate_product_video_body
          ⟨some "vg-1", some "https://img/e.png", some "p", some "a@b.com", some "Lamp"⟩
          (.success "https://v/out.mp4")).updates =
            [.setStatusErr .failed ("Unexpected Error: " ++ m.take 200)] ∧
       (generate_product_video_body
          ⟨some "vg-1", some "https://img/e.png", some "p", some "a@b.com", some "Lamp"⟩
          (.success "https://v/out.mp4")).scheduled = []) ∧
     ((generate_product_video_body
          ⟨some "vg-1", some "https://img/e.png", some "p", some "a@b.com", some "Lamp"⟩
          (.success "https://v/out.mp4")).scheduled ≠ [] →
        ∃ url, FalOutcome.success "https://v/out.mp4" = .success url)) :=
  ⟨rfl, rfl,
   video_stage_side_effects
     ⟨some "vg-1", some "https://img/e.png", some "p", some "a@b.com", some "Lamp"⟩
     "vg-1" (.success "https://v/out.mp4") rfl rfl rfl rfl rfl⟩

/-- Witness for C10 at a .pdf source image. -/
theorem edit_input_validation_witness :
    (present (ImageEditData.mk (some "https://x/f.pdf") (some "p") (some "pid")).file_url = false ∨
     present (ImageEditData.mk (some "https://x/f.pdf") (some "p") (some "pid")).prompt = false ∨
     present (ImageEditData.mk (some "https://x/f.pdf") (some "p") (some "pid")).prompt_id = false ∨
     hasSupportedExt ((ImageEditData.mk (some "https://x/f.pdf") (some "p") (some "pid")).file_url.getD "") = false) ∧
    ((edit_product_image_body ⟨some "https://x/f.pdf", some "p", some "pid"⟩ (.ok "u")).1 = false ∧
     ∃ e, (edit_product_image_body ⟨some "https://x/f.pdf", some "p", some "pid"⟩ (.ok "u")).2 = .raises e ∧
       e.cls = .fatal ∧
       wrapperStep 2 0 (edit_product_image_body ⟨some "https://x/f.pdf", some "p", some "pid"⟩ (.ok "u")).2 =
         .failedDict (failedDictOf e)) :=
  ⟨Or.inr (Or.inr (Or.inr (by decide))),
   edit_input_validation ⟨some "https://x/f.pdf", some "p", some "pid"⟩ (.ok "u") 0
     (Or.inr (Or.inr (Or.inr (by decide))))⟩

/-- The accumulator-passing form of the max-`created_at` selection performed
by `find_similar_prompt`. -/
theorem pickLater_aux (l : List PromptRec) : ∀ (a : PromptRec),
    ∃ r, l.foldl (fun acc p =>
        match acc with
        | none => some p
        | some q => if p.created_at > q.created_at then some p else some q) (some a) = some r ∧
      (r = a ∨ r ∈ l) ∧ a.created_at ≤ r.created_at ∧
      ∀ q ∈ l, q.created_at ≤ r.created_at := by
  induction l with
  | nil =>
    intro a
    exact ⟨a, rfl, Or.inl rfl, le_refl _, by simp⟩
  | cons p t ih =>
    intro a
    by_cases hpa : p.created_at > a.created_at
    · obtain ⟨r, hr, hmem, hle, hall⟩ := ih p
      refine ⟨r, ?_, ?_, ?_, ?_⟩
      · simpa [List.foldl_cons, hpa] using hr
      · rcases hmem with h | h
        · exact Or.inr (by simp [h])
        · exact Or.inr (List.mem_cons_of_mem _ h)
      · exact le_trans (le_of_lt hpa) hle
      · intro q hq
        rcases List.mem_cons.1 hq with h | h
        · subst h; exact hle
        · exact hall q h
    · obtain ⟨r, hr, hmem, hle, hall⟩ := ih a
      refine ⟨r, ?_, ?_, ?_, ?_⟩
      · simpa [List.foldl_cons, hpa] using hr
      · rcases hmem with h | h
        · exact Or.inl h
        · exact Or.inr (List.mem_cons_of_mem _ h)
      · exact hle
      · intro q hq
        rcases List.mem_cons.1 hq with h | h
        · subst h; exact le_trans (le_of_not_lt hpa) hle
        · exact hall q h

/-- When some approved row matches the title, `find_similar_prompt` returns
a matching row of maximal `created_at`. -/
theorem find_similar_spec (db : List PromptRec) (title : String)
    (hex : ∃ q ∈ db, titleMatches title q = true) :
    ∃ p, find_similar_prompt db title = some p ∧ titleMatches title p = true ∧
      ∀ q ∈ db, titleMatches title q = true → q.created_at ≤ p.created_at := by
  obtain ⟨q0, hq0, hm0⟩ := hex
  have hqf : q0 ∈ db.filter (titleMatches title) := List.mem_filter.2 ⟨hq0, hm0⟩
  cases hfil : db.filter (titleMatches title) with
  | nil => rw [hfil] at hqf; cases hqf
  | cons p t =>
    obtain ⟨r, hr, hmem, hacc, hall⟩ := pickLater_aux t p
    refine ⟨r, ?_, ?_, ?_⟩
    · unfold find_similar_prompt
      rw [hfil]
      exact hr
    · have hrf : r ∈ db.filter (titleMatches title) := by
        rw [hfil]
        rcases hmem with h | h
        · simp [h]
        · exact List.mem_cons_of_mem _ h
      exact (List.mem_filter.1 hrf).2
    · intro q hq hqm
      have hqf' : q ∈ db.filter (titleMatches title) := List.mem_filter.2 ⟨hq, hqm⟩
      rw [hfil] at hqf'
      rcases List.mem_cons.1 hqf' with h | h
      · subst h; exact hacc
      · exact hall q h

/-- Claim C5: a `get_or_generate_prompt` call (as made by PromptStage, with
`force_new` at its default) whose title case-insensitively matches an
approved existing record performs zero collaborator calls, leaves the
database unchanged and returns an existing approved match of maximal
`created_at`; only when no approved match exists does it call the
collaborator once and persist a new record. -/
theorem prompt_dedup_cache (db : List PromptRec) (title desc email : String)
    (gen : GenOutcome) (nid now : Nat)
    (ht : title ≠ "") (hd : desc ≠ "") (he : email ≠ "") :
    ((∃ q ∈ db, titleMatches title q = true) →
       (get_or_generate_prompt db title desc email false gen nid now).collaboratorCalls = 0 ∧
       (get_or_generate_prompt db title desc email false gen nid now).db = db ∧
       ∃ p, (get_or_generate_prompt db title desc email false gen nid now).result = .ok (p, false) ∧
         titleMatches title p = true ∧
         ∀ q ∈ db, titleMatches title q = true → q.created_at ≤ p.created_at) ∧
    ((∀ q ∈ db, titleMatches title q = false) → ∀ text mu, gen = .genOk text mu →
       (get_or_generate_prompt db title desc email false gen nid now).collaboratorCalls = 1 ∧
       (get_or_generate_prompt db title desc email false gen nid now).db =
         db ++ [⟨nid, title, desc, email, text, mu, true, now, none⟩] ∧
       (get_or_generate_prompt db title desc email false gen nid now).result =
         .ok (⟨nid, title, desc, email, text, mu, true, now, none⟩, true)) := by
  have hv : (title == "" || desc == "" || email == "") = false := by
    simp [ht, hd, he]
  constructor
  · intro hex
    obtain ⟨p, hp, hpm, hmax⟩ := find_similar_spec db title hex
    have hrun : get_or_generate_prompt db title desc email false gen nid now =
        ⟨.ok (p, false), db, 0⟩ := by
      simp [get_or_generate_prompt, hv, hp]
    rw [hrun]
    exact ⟨rfl, rfl, p, rfl, hpm, hmax⟩
  · intro hnone text mu hgen
    have hfil : db.filter (titleMatches title) = [] := by
      rw [List.filter_eq_nil_iff]
      intro q hq
      simp [hnone q hq]
    have hfs : find_similar_prompt db title = none := by
      unfold find_similar_prompt
      rw [hfil]
      rfl
    subst hgen
    have hrun : get_or_generate_prompt db title desc email false (.genOk text mu) nid now =
        ⟨.ok (⟨nid, title, desc, email, text, mu, true, now, none⟩, true),
         db ++ [⟨nid, title, desc, email, text, mu, true, now, none⟩], 1⟩ := by
      simp [get_or_generate_prompt, hv, hfs]
    rw [hrun]
    exact ⟨rfl, rfl, rfl⟩

/-- Witness for C5: two approved records with the same case-folded title
and increasing creation times. -/
theorem prompt_dedup_cache_witness :
    "Lamp" ≠ "" ∧ "A lamp" ≠ "" ∧ "a@b.com" ≠ "" ∧
    (((∃ q ∈ [PromptRec.mk 1 "lamp" "d1" "x@y.z" "p1" "m1" true 1 none,
              PromptRec.mk 2 "LAMP" "d2" "x@y.z" "p2" "m2" true 5 none],
          titleMatches "Lamp" q = true) →
       (get_or_generate_prompt
          [PromptRec.mk 1 "lamp" "d1" "x@y.z" "p1" "m1" true 1 none,
           PromptRec.mk 2 "LAMP" "d2" "x@y.z" "p2" "m2" true 5 none]
          "Lamp" "A lamp" "a@b.com" false (.genOk "t" "m") 3 9).collaboratorCalls = 0 ∧
       (get_or_generate_prompt
          [PromptRec.mk 1 "lamp" "d1" "x@y.z" "p1" "m1" true 1 none,
           PromptRec.mk 2 "LAMP" "d2" "x@y.z" "p2" "m2" true 5 none]
          "Lamp" "A lamp" "a@b.com" false (.genOk "t" "m") 3 9).db =
         [PromptRec.mk 1 "lamp" "d1" "x@y.z" "p1" "m1" true 1 none,
          PromptRec.mk 2 "LAMP" "d2" "x@y.z" "p2" "m2" true 5 none] ∧
       ∃ p, (get_or_generate_prompt
          [PromptRec.mk 1 "lamp" "d1" "x@y.z" "p1" "m1" true 1 none,
           PromptRec.mk 2 "LAMP" "d2" "x@y.z" "p2" "m2" true 5 none]
          "Lamp" "A lamp" "a@b.com" false (.genOk "t" "m") 3 9).result = .ok (p, false) ∧
         titleMatches "Lamp" p = true ∧
         ∀ q ∈ [PromptRec.mk 1 "lamp" "d1" "x@y.z" "p1" "m1" true 1 none,
                PromptRec.mk 2 "LAMP" "d2" "x@y.z" "p2" "m2" true 5 none],
           titleMatches "Lamp" q = true → q.created_at ≤ p.created_at) ∧
     ((∀ q ∈ [PromptRec.mk 1 "lamp" "d1" "x@y.z" "p1" "m1" true 1 none,
              PromptRec.mk 2 "LAMP" "d2" "x@y.z" "p2" "m2" true 5 none],
          titleMatches "Lamp" q = false) → ∀ text mu, GenOutcome.genOk "t" "m" = .genOk text mu →
       (get_or_generate_prompt
          [PromptRec.mk 1 "lamp" "d1" "x@y.z" "p1" "m1" true 1 none,
           PromptRec.mk 2 "LAMP" "d2" "x@y.z" "p2" "m2" true 5 none]
          "Lamp" "A lamp" "a@b.com" false (.genOk "t" "m") 3 9).collaboratorCalls = 1 ∧
       (get_or_generate_prompt
          [PromptRec.mk 1 "lamp" "d1" "x@y.z" "p1" "m1" true 1 none,
           PromptRec.mk 2 "LAMP" "d2" "x@y.z" "p2" "m2" true 5 none]
          "Lamp" "A lamp" "a@b.com" false (.genOk "t" "m") 3 9).db =
         [PromptRec.mk 1 "lamp" "d1" "x@y.z" "p1" "m1" true 1 none,
          PromptRec.mk 2 "LAMP" "d2" "x@y.z" "p2" "m2" true 5 none] ++
           [⟨3, "Lamp", "A lamp", "a@b.com", text, mu, true, 9, none⟩] ∧
       (get_or_generate_prompt
          [PromptRec.mk 1 "lamp" "d1" "x@y.z" "p1" "m1" true 1 none,
           PromptRec.mk 2 "LAMP" "d2" "x@y.z" "p2" "m2" true 5 none]
          "Lamp" "A lamp" "a@b.com" false (.genOk "t" "m") 3 9).result =
         .ok (⟨3, "Lamp", "A lamp", "a@b.com", text, mu, true, 9, none⟩, true))) :=
  by
  refine ⟨by decide, by decide, by decide, ?_⟩
  exact prompt_dedup_cache
     [PromptRec.mk 1 "lamp" "d1" "x@y.z" "p1" "m1" true 1 none,
      PromptRec.mk 2 "LAMP" "d2" "x@y.z" "p2" "m2" true 5 none]
     "Lamp" "A lamp" "a@b.com" (.genOk "t" "m") 3 9
     (by decide) (by decide) (by decide)

/-- If no attempt of the polling loop observes a terminal collaborator
state, every exit of the loop is a timeout-class `FalServiceError`. -/
theorem pollLoopAux_no_terminal (polls : Nat → PollObs) (maxPolls : Nat)
    (h : ∀ i, i < maxPolls → obsTerminal (polls i) = false) :
    ∀ remaining, remaining ≤ maxPolls →
      timeoutClass (pollLoopAux polls maxPolls remaining) = true := by
  intro remaining
  induction remaining with
  | zero => intro _; rfl
  | succ r ih =>
    intro hle
    have hi : maxPolls - (r + 1) < maxPolls := by omega
    have ht := h (maxPolls - (r + 1)) hi
    have ihr := ih (by omega)
    cases hp : polls (maxPolls - (r + 1)) with
    | got s ru httpOk =>
      rw [hp] at ht
      rw [show obsTerminal (PollObs.got s ru httpOk) =
            (s == "COMPLETED" || (s == "FAILED" || (s == "CANCELLED" || s == "ERROR"))) from rfl,
          Bool.or_eq_false_iff, Bool.or_eq_false_iff, Bool.or_eq_false_iff] at ht
      obtain ⟨h1, h2, _, h4⟩ := ht
      cases httpOk with
      | true => simpa [pollLoopAux, hp, h1, h2, h4] using ihr
      | false =>
        cases hr0 : (r == 0 : Bool) with
        | true => simp [pollLoopAux, hp, h1, h2, h4, hr0, timeoutClass]
        | false => simpa [pollLoopAux, hp, h1, h2, h4, hr0] using ihr
    | noStatus httpOk =>
      cases httpOk with
      | true => simpa [pollLoopAux, hp] using ihr
      | false =>
        cases hr0 : (r == 0 : Bool) with
        | true => simp [pollLoopAux, hp, hr0, timeoutClass]
        | false => simpa [pollLoopAux, hp, hr0] using ihr
    | netErr =>
      cases hr0 : (r == 0 : Bool) with
      | true => simp [pollLoopAux, hp, hr0, timeoutClass]
      | false => simpa [pollLoopAux, hp, hr0] using ihr

/-- Claim C7: a polling loop in which no attempt within the configured maximum of
45 polls observes a terminal collaborator state (COMPLETED, FAILED,
CANCELLED or ERROR) exits with a timeout-class `FalServiceError`, and the
video stage receiving the resulting `FalServiceError` writes the run to
status `failed`; a network error on a single non-final poll does not abort
the loop — a later COMPLETED poll still succeeds. -/
theorem video_poll_timeout (polls : Nat → PollObs) (data : VideoGenData) (vgid : String)
    (hterm : ∀ i, i < max_polls → obsTerminal (polls i) = false)
    (hid : data.video_generation_id = some vgid)
    (h1 : present data.edited_image_url = true) (h2 : present data.prompt = true)
    (h3 : present data.email = true) (h4 : present data.product_title = true) :
    timeoutClass (pollLoop polls max_polls) = true ∧
    (∀ m, (generate_product_video_body data (.falError m)).updates.map DbUpdate.statusOf
        = [.failed]) ∧
    (∀ ru httpOk,
      pollLoop (fun i => if i == 0 then PollObs.netErr else .got "COMPLETED" ru httpOk)
        max_polls = .completedAt 1 ru) := by
  refine ⟨pollLoopAux_no_terminal polls max_polls hterm max_polls (le_refl _), ?_, ?_⟩
  · intro m
    simp [generate_product_video_body, hid, h1, h2, h3, h4, DbUpdate.statusOf]
  · intro ru httpOk
    rfl

/-- Witness for C7: an oracle whose polls all raise network errors. -/
theorem video_poll_timeout_witness :
    (∀ i, i < max_polls → obsTerminal ((fun _ : Nat => PollObs.netErr) i) = false) ∧
    (timeoutClass (pollLoop (fun _ : Nat => PollObs.netErr) max_polls) = true ∧
     (∀ m, (generate_product_video_body
        ⟨some "vg-1", some "https://img/e.png", some "p", some "a@b.com", some "Lamp"⟩
        (.falError m)).updates.map DbUpdate.statusOf = [.failed]) ∧
     (∀ ru httpOk,
       pollLoop (fun i => if i == 0 then PollObs.netErr else .got "COMPLETED" ru httpOk)
         max_polls = .completedAt 1 ru)) :=
  ⟨fun _ _ => rfl,
   video_poll_timeout (fun _ => PollObs.netErr)
     ⟨some "vg-1", some "https://img/e.png", some "p", some "a@b.com", some "Lamp"⟩
     "vg-1" (fun _ _ => rfl) rfl rfl rfl rfl rfl⟩

/-- Claim C9 (code bug): a cache-miss run of the prompt task persists the new
`ProductPrompt` with `task_id = None` — `get_or_generate_prompt` never sets
the field and `generate_prompt_with_openrouter` never writes the record
afterwards, so the record is not tagged with the generating run's task
identifier (here `"run-task-1"`), contradicting the model's documented
purpose of the field and the simulation script which attaches it. -/
theorem prompt_record_not_tagged :
    (generate_prompt_with_openrouter [] "Lamp" "A lamp" "a@b.com" "run-task-1"
        (.genOk "cinematic prompt" "openai/gpt-4.1") 1 100).2 =
      [⟨1, "Lamp", "A lamp", "a@b.com", "cinematic prompt", "openai/gpt-4.1", true, 100, none⟩] ∧
    ((generate_prompt_with_openrouter [] "Lamp" "A lamp" "a@b.com" "run-task-1"
        (.genOk "cinematic prompt" "openai/gpt-4.1") 1 100).2.all
      fun p => p.task_id == none) = true :=
  ⟨rfl, rfl⟩

/-- Claim C4: for a run with the skip-image-edit flag set whose prompt stage
succeeded, the continuation with a supported source extension schedules
VideoGenStage once with the original image reference and never queues the
image-edit task (hence the image-edit collaborator is never invoked); with
an unsupported extension it marks the run failed with the descriptive
message before any collaborator call; and in every case exactly one of
{schedule ImageEditStage, schedule VideoGenStage, mark failed} happens. -/
theorem skip_image_edit_path (st : PipelineState) (pr : PromptResult) (vgid : String) (k : Bool)
    (hid : st.video_generation_id = some vgid)
    (hs : pr.status = "success")
    (hskip : st.skip_image_editing = true) :
    (hasSupportedExt st.file_url = true → k = true →
       (continue_with_image_edit (some st) pr k).scheduled =
         [.videoGen ⟨some vgid, some st.file_url, some pr.prompt_text, some st.email,
            some st.product_title⟩] ∧
       schedulesImageEdit (continue_with_image_edit (some st) pr k) = false ∧
       marksFailed (continue_with_image_edit (some st) pr k) = false) ∧
    (hasSupportedExt st.file_url = false →
       (continue_with_image_edit (some st) pr k).scheduled = [] ∧
       (continue_with_image_edit (some st) pr k).updates =
         [.setStatusErr .failed (("Cannot skip image editing for non-image file format: " ++
            st.file_url ++
            ". Only PNG, JPG, and WEBP formats are supported for direct video generation.").take 255)]) ∧
    schedulesImageEdit (continue_with_image_edit (some st) pr k) = false ∧
    exactlyOne (schedulesImageEdit (continue_with_image_edit (some st) pr k))
      (schedulesVideoGen (continue_with_image_edit (some st) pr k))
      (marksFailed (continue_with_image_edit (some st) pr k)) = true := by
  cases hx : hasSupportedExt st.file_url <;> cases k <;>
    simp [continue_with_image_edit, hid, hs, hskip, hx, schedulesImageEdit, schedulesVideoGen,
      marksFailed, exactlyOne, DbUpdate.statusOf] <;>
    decide

/-- Witness for C4 at a .png source image with the skip flag set. -/
theorem skip_image_edit_path_witness :
    (PipelineState.mk (some "vg-1") true "https://x/img.png" "a@b.com" "Lamp").video_generation_id
        = some "vg-1" ∧
    (PromptResult.mk "success" "p" "pid" none).status = "success" ∧
    (PipelineState.mk (some "vg-1") true "https://x/img.png" "a@b.com" "Lamp").skip_image_editing
        = true ∧
    ((hasSupportedExt (PipelineState.mk (some "vg-1") true "https://x/img.png" "a@b.com"
          "Lamp").file_url = true → true = true →
       (continue_with_image_edit (some ⟨some "vg-1", true, "https://x/img.png", "a@b.com", "Lamp"⟩)
          ⟨"success", "p", "pid", none⟩ true).scheduled =
         [.videoGen ⟨some "vg-1", some "https://x/img.png", some "p", some "a@b.com", some "Lamp"⟩] ∧
       schedulesImageEdit (continue_with_image_edit
          (some ⟨some "vg-1", true, "https://x/img.png", "a@b.com", "Lamp"⟩)
          ⟨"success", "p", "pid", none⟩ true) = false ∧
       marksFailed (continue_with_image_edit
          (some ⟨some "vg-1", true, "https://x/img.png", "a@b.com", "Lamp"⟩)
          ⟨"success", "p", "pid", none⟩ true) = false) ∧
     (hasSupportedExt (PipelineState.mk (some "vg-1") true "https://x/img.png" "a@b.com"
          "Lamp").file_url = false →
       (continue_with_image_edit (some ⟨some "vg-1", true, "https://x/img.png", "a@b.com", "Lamp"⟩)
          ⟨"success", "p", "pid", none⟩ true).scheduled = [] ∧
       (continue_with_image_edit (some ⟨some "vg-1", true, "https://x/img.png", "a@b.com", "Lamp"⟩)
          ⟨"success", "p", "pid", none⟩ true).updates =
         [.setStatusErr .failed (("Cannot skip image editing for non-image file format: " ++
            (PipelineState.mk (some "vg-1") true "https://x/img.png" "a@b.com" "Lamp").file_url ++
            ". Only PNG, JPG, and WEBP formats are supported for direct video generation.").take 255)]) ∧
     schedulesImageEdit (continue_with_image_edit
        (some ⟨some "vg-1", true, "https://x/img.png", "a@b.com", "Lamp"⟩)
        ⟨"success", "p", "pid", none⟩ true) = false ∧
     exactlyOne
       (schedulesImageEdit (continue_with_image_edit
          (some ⟨some "vg-1", true, "https://x/img.png", "a@b.com", "Lamp"⟩)
          ⟨"success", "p", "pid", none⟩ true))
       (schedulesVideoGen (continue_with_image_edit
          (some ⟨some "vg-1", true, "https://x/img.png", "a@b.com", "Lamp"⟩)
          ⟨"success", "p", "pid", none⟩ true))
       (marksFailed (continue_with_image_edit
          (some ⟨some "vg-1", true, "https://x/img.png", "a@b.com", "Lamp"⟩)
          ⟨"success", "p", "pid", none⟩ true)) = true) :=
  ⟨rfl, rfl, rfl,
   skip_image_edit_path ⟨some "vg-1", true, "https://x/img.png", "a@b.com", "Lamp"⟩
     ⟨"success", "p", "pid", none⟩ "vg-1" true rfl rfl rfl⟩

/-- Every invocation of the first continuation writes one of six
status/scheduling shapes, each of them forward-moving. -/
theorem cont1_update_shapes (s : Option PipelineState) (pr : PromptResult) (k : Bool) :
    ((continue_with_image_edit s pr k).updates.map DbUpdate.statusOf = [] ∧
      (continue_with_image_edit s pr k).scheduled = []) ∨
    ((continue_with_image_edit s pr k).updates.map DbUpdate.statusOf = [.failed] ∧
      (continue_with_image_edit s pr k).scheduled = []) ∨
    ((continue_with_image_edit s pr k).updates.map DbUpdate.statusOf = [.processing_video] ∧
      ∃ d, (continue_with_image_edit s pr k).scheduled = [.videoGen d]) ∨
    ((continue_with_image_edit s pr k).updates.map DbUpdate.statusOf =
        [.processing_video, .failed] ∧
      (continue_with_image_edit s pr k).scheduled = []) ∨
    ((continue_with_image_edit s pr k).updates.map DbUpdate.statusOf = [.processing] ∧
      ∃ d, (continue_with_image_edit s pr k).scheduled = [.imageEditChain d]) ∨
    ((continue_with_image_edit s pr k).updates.map DbUpdate.statusOf = [.processing, .failed] ∧
      (continue_with_image_edit s pr k).scheduled = []) := by
  cases s with
  | none => exact Or.inl ⟨rfl, rfl⟩
  | some st =>
    cases hv : st.video_generation_id with
    | none =>
      left
      simp [continue_with_image_edit, hv]
    | some vgid =>
      cases hps : (pr.status == "success") with
      | false =>
        right; left
        simp [continue_with_image_edit, hv, hps, DbUpdate.statusOf]
      | true =>
        cases hsk : st.skip_image_editing with
        | true =>
          cases hx : hasSupportedExt st.file_url with
          | false =>
            right; left
            simp [continue_with_image_edit, hv, hps, hsk, hx, DbUpdate.statusOf]
          | true =>
            cases k with
            | true =>
              right; right; left
              refine ⟨?_, ⟨some vgid, some st.file_url, some pr.prompt_text, some st.email,
                some st.product_title⟩, ?_⟩ <;>
                simp [continue_with_image_edit, hv, hps, hsk, hx, DbUpdate.statusOf]
            | false =>
              right; right; right; left
              simp [continue_with_image_edit, hv, hps, hsk, hx, DbUpdate.statusOf]
        | false =>
          cases k with
          | true =>
            right; right; right; right; left
            refine ⟨?_, ⟨some st.file_url, some pr.prompt_text, some pr.prompt_id⟩, ?_⟩ <;>
              simp [continue_with_image_edit, hv, hps, hsk, DbUpdate.statusOf]
          | false =>
            right; right; right; right; right
            simp [continue_with_image_edit, hv, hps, hsk, DbUpdate.statusOf]

/-- Every invocation of the second continuation writes one of four
status/scheduling shapes, each of them forward-moving. -/
theorem cont2_update_shapes (s : Option PipelineState) (img : ImageResult) (dl hb sk : Bool) :
    ((continue_with_video_generation s img dl hb sk).updates.map DbUpdate.statusOf = [] ∧
      (continue_with_video_generation s img dl hb sk).scheduled = []) ∨
    ((continue_with_video_generation s img dl hb sk).updates.map DbUpdate.statusOf = [.failed] ∧
      (continue_with_video_generation s img dl hb sk).scheduled = []) ∨
    ((continue_with_video_generation s img dl hb sk).updates.map DbUpdate.statusOf =
        [.processing_video] ∧
      ∃ d, (continue_with_video_generation s img dl hb sk).scheduled = [.videoGen d]) ∨
    ((continue_with_video_generation s img dl hb sk).updates.map DbUpdate.statusOf =
        [.processing_video, .failed] ∧
      (continue_with_video_generation s img dl hb sk).scheduled = []) := by
  cases s with
  | none => exact Or.inl ⟨rfl, rfl⟩
  | some st =>
    cases hv : st.video_generation_id with
    | none =>
      left
      simp [continue_with_video_generation, hv]
    | some vgid =>
      cases hst : (img.status == "error") with
      | true =>
        right; left
        simp [continue_with_video_generation, hv, hst, DbUpdate.statusOf]
      | false =>
        cases hu : img.edited_image_url with
        | none =>
          right; left
          simp [continue_with_video_generation, hv, hst, hu, DbUpdate.statusOf]
        | some url =>
          cases dl with
          | false =>
            right; left
            simp [continue_with_video_generation, hv, hst, hu, DbUpdate.statusOf]
          | true =>
            cases hb with
            | true =>
              right; left
              simp [continue_with_video_generation, hv, hst, hu, DbUpdate.statusOf]
            | false =>
              cases sk with
              | true =>
                right; right; left
                refine ⟨?_, ⟨some vgid, some url, img.prompt, some st.email,
                  some st.product_title⟩, ?_⟩ <;>
                  simp [continue_with_video_generation, hv, hst, hu, DbUpdate.statusOf]
              | false =>
                right; right; right
                simp [continue_with_video_generation, hv, hst, hu, DbUpdate.statusOf]

/-- Every run of the video stage body writes either nothing, a single
`failed` status, or a single `completed` status. -/
theorem video_update_shapes (vd : VideoGenData) (fal : FalOutcome) :
    (generate_product_video_body vd fal).updates.map DbUpdate.statusOf = [] ∨
    (generate_product_video_body vd fal).updates.map DbUpdate.statusOf = [.failed] ∨
    (generate_product_video_body vd fal).updates.map DbUpdate.statusOf = [.completed] := by
  cases hv : vd.video_generation_id with
  | none =>
    left
    simp [generate_product_video_body, hv]
  | some vgid =>
    simp only [generate_product_video_body, hv]
    cases fal <;> (repeat' split) <;>
      first
        | (right; right; simp [DbUpdate.statusOf]; done)
        | (right; left; simp [DbUpdate.statusOf]; done)
        | (left; simp [DbUpdate.statusOf]; done)

/-- Claim C1: along every run, the persisted status only ever takes one of the
six specified values, and consecutive status writes always move strictly
forward in the order pending → processing[_image] → processing_video →
completed, with `failed` reachable from any non-terminal state and no
transition ever leaving a terminal state. -/
theorem status_trace_invariant : ∀ o : RunOracle,
    ((runTrace o).all fun s => statusValues.contains s) = true ∧
    chainForward (runTrace o) = true := by
  intro o
  constructor
  · rw [List.all_eq_true]
    intro s _
    cases s <;> rfl
  · unfold runTrace
    dsimp only
    cases hw : o.stateWriteOk with
    | false => simp [chainForward, forwardOk, StatusV.rank] <;> decide
    | true =>
      cases hc : o.chainOk with
      | false => simp [chainForward, forwardOk, StatusV.rank] <;> decide
      | true =>
        rcases cont1_update_shapes (if o.stateAtCont1 then some o.st else none)
            (promptResultOf o.promptOutcome) o.cont1SchedOk with
          ⟨hu, hs⟩ | ⟨hu, hs⟩ | ⟨hu, d, hs⟩ | ⟨hu, hs⟩ | ⟨hu, d, hs⟩ | ⟨hu, hs⟩
        · rw [hu, hs]; simp [chainForward, forwardOk, StatusV.rank] <;> decide
        · rw [hu, hs]; simp [chainForward, forwardOk, StatusV.rank] <;> decide
        · rw [hu, hs]
          simp only [List.head?_cons]
          rcases video_update_shapes d o.fal with h | h | h <;> rw [h] <;>
            simp [chainForward, forwardOk, StatusV.rank] <;> decide
        · rw [hu, hs]; simp [chainForward, forwardOk, StatusV.rank] <;> decide
        · rw [hu, hs]
          simp only [List.head?_cons]
          rcases cont2_update_shapes (if o.stateAtCont2 then some o.st else none)
              (imageResultOf d o.editImage) o.downloadOk o.headBad o.cont2SchedOk with
            ⟨hu2, hs2⟩ | ⟨hu2, hs2⟩ | ⟨hu2, d2, hs2⟩ | ⟨hu2, hs2⟩
          · rw [hu2, hs2]; simp [chainForward, forwardOk, StatusV.rank] <;> decide
          · rw [hu2, hs2]; simp [chainForward, forwardOk, StatusV.rank] <;> decide
          · rw [hu2, hs2]
            simp only [List.head?_cons]
            rcases video_update_shapes d2 o.fal with h | h | h <;> rw [h] <;>
              simp [chainForward, forwardOk, StatusV.rank] <;> decide
          · rw [hu2, hs2]; simp [chainForward, forwardOk, StatusV.rank] <;> decide
        · rw [hu, hs]; simp [chainForward, forwardOk, StatusV.rank] <;> decide

end ProductVideos
